import Mathlib

/-
Shallow embedding of `library/core/src/ops/async_function.rs` and of the
regression test `tests/ui/associated-type-bounds/dyn-rpit-and-let.rs`.

The Rust source is purely type-level: three async call-capability traits
(`AsyncFn : AsyncFnMut : AsyncFnOnce`), blanket implementations deriving them
for every ordinary callable whose result type is a `Future`, and the internal
`AsyncFnKindHelper` lang item.  We embed:

* trait implementations as Lean structures (`Future`, `FnOnce`, `FnMut`, `Fn`,
  `AsyncFnOnce`, `AsyncFnMut`, `AsyncFn`); a receiver of shape `&mut self`
  becomes explicit state passing `F → A → Result × F`, a `&self` receiver
  becomes `F → A → Result` (no state returned), a `self` receiver consumes;
* the three blanket implementations as Lean functions producing the derived
  structures (`asyncFnOnceBlanket`, `asyncFnMutBlanket`, `asyncFnBlanket`);
* compile-time trait selection for the blanket rules as a closed-world
  resolution function over a small universe `Ty` of Rust types
  (`resolveAsync`), since applicability of an `impl` is a closed-world fact;
* the declared supertrait chain as data (`directSupertrait`, `subsumes`);
* the compiler-side parts that are not in the sources (the implementation of
  `AsyncFnKindHelper` and the move checker for by-value receivers) modelled
  from the spec, marked as such below.
-/

/-- The external deferred-computation abstraction: the Rust trait
`core::future::Future`.  The core under verification only consumes its
associated `Output` type and treats the handle itself as a black box, so an
implementation of the trait for a type `Fut` is exactly a choice of `Output`. -/
structure Future (Fut : Type) where
  Output : Type

/-- The external ordinary-call tier `FnOnce<A>`: a consuming call operation
`call_once(self, args: A) -> Output`. -/
structure FnOnce (F A : Type) where
  Output : Type
  call_once : F → A → Output

/-- The external ordinary-call tier `FnMut<A>: FnOnce<A>`: the call operation
`call_mut(&mut self, args: A) -> Output` takes the callable by exclusive
reference, embedded as state passing (the updated callable is returned). -/
structure FnMut (F A : Type) extends FnOnce F A where
  call_mut : F → A → Output × F

/-- The external ordinary-call tier `Fn<A>: FnMut<A>`: the call operation
`call(&self, args: A) -> Output` takes the callable by shared reference, so it
cannot change the callable and no updated state is returned. -/
structure Fn (F A : Type) extends FnMut F A where
  call : F → A → Output

/-- The trait `AsyncFnOnce<Args>` of `async_function.rs` lines 52-64: an
associated future type `CallOnceFuture: Future<Output = Self::Output>`, the
single associated `Output`, and the consuming call
`async_call_once(self, args) -> CallOnceFuture`.  The bound on the associated
type is embedded as a bundled `Future` implementation (`futureInst`) together
with the equation `output_eq` forced by `Future<Output = Self::Output>`. -/
structure AsyncFnOnce (F A : Type) where
  CallOnceFuture : Type
  Output : Type
  futureInst : Future CallOnceFuture
  output_eq : futureInst.Output = Output
  async_call_once : F → A → CallOnceFuture

/-- The trait `AsyncFnMut<Args>: AsyncFnOnce<Args>` of lines 32-42: adds
`CallMutFuture<..>: Future<Output = Self::Output>` and
`async_call_mut(&mut self, args) -> CallMutFuture`, the exclusive-reference
receiver embedded as state passing. -/
structure AsyncFnMut (F A : Type) extends AsyncFnOnce F A where
  CallMutFuture : Type
  mutFutureInst : Future CallMutFuture
  mut_output_eq : mutFutureInst.Output = Output
  async_call_mut : F → A → CallMutFuture × F

/-- The trait `AsyncFn<Args>: AsyncFnMut<Args>` of lines 12-22: adds
`CallFuture<..>: Future<Output = Self::Output>` and
`async_call(&self, args) -> CallFuture` through a shared reference. -/
structure AsyncFn (F A : Type) extends AsyncFnMut F A where
  CallFuture : Type
  callFutureInst : Future CallFuture
  call_output_eq : callFutureInst.Output = Output
  async_call : F → A → CallFuture

/-- Blanket rule of lines 96-107: `impl<F: FnOnce<A>, A> AsyncFnOnce<A> for F
where F::Output: Future`.  `CallOnceFuture` is set to the ordinary result type
directly, `Output` to the future's `Output`, and `async_call_once` forwards to
`call_once`. -/
def asyncFnOnceBlanket {F A : Type} (i : FnOnce F A) (fut : Future i.Output) :
    AsyncFnOnce F A where
  CallOnceFuture := i.Output
  Output := fut.Output
  futureInst := fut
  output_eq := rfl
  async_call_once := i.call_once

/-- Blanket rule of lines 84-93: `impl<F: FnMut<A>, A> AsyncFnMut<A> for F
where F::Output: Future`.  `CallMutFuture` is the ordinary result type and
`async_call_mut` forwards to `call_mut`; the `AsyncFnOnce` part comes from the
blanket rule on the `FnOnce` part. -/
def asyncFnMutBlanket {F A : Type} (i : FnMut F A) (fut : Future i.Output) :
    AsyncFnMut F A where
  toAsyncFnOnce := asyncFnOnceBlanket i.toFnOnce fut
  CallMutFuture := i.Output
  mutFutureInst := fut
  mut_output_eq := rfl
  async_call_mut := i.call_mut

/-- Blanket rule of lines 72-81: `impl<F: Fn<A>, A> AsyncFn<A> for F where
F::Output: Future`.  `CallFuture` is the ordinary result type and `async_call`
forwards to `call`. -/
def asyncFnBlanket {F A : Type} (i : Fn F A) (fut : Future i.Output) :
    AsyncFn F A where
  toAsyncFnMut := asyncFnMutBlanket i.toFnMut fut
  CallFuture := i.Output
  callFutureInst := fut
  call_output_eq := rfl
  async_call := i.call

/-- The three async capability tiers, named after the trait declarations:
`byRef` is `AsyncFn`, `byMutRef` is `AsyncFnMut`, `byValue` is `AsyncFnOnce`. -/
inductive AsyncTier
  | byRef
  | byMutRef
  | byValue
deriving DecidableEq

/-- The direct supertrait of each trait exactly as declared in the source:
`AsyncFn<Args>: AsyncFnMut<Args>` (line 12), `AsyncFnMut<Args>: AsyncFnOnce<Args>`
(line 32), and `AsyncFnOnce<Args>` has no supertrait (line 52). -/
def directSupertrait : AsyncTier → Option AsyncTier
  | .byRef => some .byMutRef
  | .byMutRef => some .byValue
  | .byValue => none

/-- Reflexive-transitive closure of `directSupertrait`: `subsumes t u` holds
when a type implementing tier `t` is thereby required to implement tier `u`.
Since `directSupertrait` reaches `none` after at most two steps, unrolling the
closure twice is exact. -/
def subsumes (t u : AsyncTier) : Bool :=
  decide (t = u) ||
    match directSupertrait t with
    | some p =>
        decide (p = u) ||
          match directSupertrait p with
          | some q => decide (q = u)
          | none => false
    | none => false

/-- A small closed universe of Rust types, enough to express the compile-time
trait-selection facts: base types, references `&r T` (regions as naturals),
future types (a type satisfying the `Future` contract, with its `Output`), and
arbitrary non-future nominal types. -/
inductive Ty
  | i32
  | bool
  | u8
  | unit
  | ref (region : Nat) (t : Ty)
  | future (out : Ty)
  | other (n : Nat)
deriving DecidableEq

/-- Whether a type satisfies the deferred-computation (`Future`) contract in
the closed world: exactly the `future` types do. -/
def isFutureTy : Ty → Bool
  | .future _ => true
  | _ => false

/-- The ordinary-call tiers, used to describe which ordinary capability a
callable offers at most (`Fn` offers all three, `FnMut` offers mut and once,
`FnOnce` offers only once). -/
inductive OrdTier
  | fnTier
  | fnMutTier
  | fnOnceTier
deriving DecidableEq

/-- `ordImplements offered required`: a callable whose strongest ordinary tier
is `offered` implements the ordinary trait `required` (by the `Fn: FnMut:
FnOnce` supertrait chain of the external hierarchy). -/
def ordImplements : OrdTier → OrdTier → Bool
  | .fnTier, _ => true
  | .fnMutTier, .fnTier => false
  | .fnMutTier, _ => true
  | .fnOnceTier, .fnOnceTier => true
  | .fnOnceTier, _ => false

/-- A compile-time descriptor of an ordinary callable: its result type and the
strongest ordinary-call tier it offers. -/
structure OrdCallable where
  output : Ty
  tier : OrdTier
deriving DecidableEq

/-- The ordinary trait bound of the blanket implementation for each async
tier: `F: Fn<A>` for `AsyncFn` (line 72), `F: FnMut<A>` for `AsyncFnMut`
(line 84), `F: FnOnce<A>` for `AsyncFnOnce` (line 96). -/
def requiredOrd : AsyncTier → OrdTier
  | .byRef => .fnTier
  | .byMutRef => .fnMutTier
  | .byValue => .fnOnceTier

/-- Closed-world trait selection for the blanket implementations: the `impl`
for async tier `t` applies to callable `c` iff `c` implements the
corresponding ordinary tier and the where clause
`<F as FnOnce<A>>::Output: Future` (lines 74, 86, 98) holds of its result
type.  On success the selected associated future type is the ordinary result
type itself (lines 76, 88, 100); on failure there is no matching
implementation and the call site is a compile-time error. -/
def resolveAsync (c : OrdCallable) (t : AsyncTier) : Option Ty :=
  if ordImplements c.tier (requiredOrd t) && isFutureTy c.output then
    some c.output
  else
    none

/-- The closure-kind encoding used by `AsyncFnKindHelper` (lines 110-133): a
concrete kind is one of the three tiers (`Fn`, `FnMut`, `FnOnce` in the
terminology of the rustc `ClosureKind`). -/
inductive ClosureKind
  | fn
  | fnMut
  | fnOnce
deriving DecidableEq

/-- Modelled from the spec: the compiler-side satisfiability rule for
`AsyncFnKindHelper<GoalKind>`, whose implementations are built into the
compiler and are not in the sources.  `kindSatisfies offered goal` holds when
the goal kind does not exceed the offered kind in the tier ordering: an
`Fn`-offering closure satisfies every goal, an `FnMut`-offering closure
satisfies `FnMut` and `FnOnce` goals, an `FnOnce`-offering closure satisfies
only `FnOnce` goals. -/
def kindSatisfies : ClosureKind → ClosureKind → Bool
  | .fn, _ => true
  | .fnMut, .fn => false
  | .fnMut, _ => true
  | .fnOnce, .fnOnce => true
  | .fnOnce, _ => false

/-- A captured variable (upvar) of a closure-like value, captured either by
move or by reference out of a region. -/
inductive Capture
  | byMove (t : Ty)
  | byRef (region : Nat) (t : Ty)
deriving DecidableEq

/-- Modelled from the spec: the per-upvar reconciliation rule of the
compiler-side `AsyncFnKindHelper::Upvars` projection (declared at line 131,
implemented in the compiler, not in the sources): a by-reference capture is
re-expressed as a reference bound to the borrow scope of the call
(`closure_env`), a by-move capture is unchanged. -/
def rebind (env : Nat) : Capture → Ty
  | .byMove t => t
  | .byRef _ t => .ref env t

/-- Modelled from the spec: the compiler-side projection
`AsyncFnKindHelper::Upvars<'closure_env, Inputs, Upvars, BorrowedUpvarsAsFnPtr>`.
It is only available when the goal kind is within the offered kind
(`kindSatisfies`); in that case it maps the captured-upvar description of the
closure at its maximal kind to the layout for the goal kind by rebinding each
by-reference capture to the borrow scope `env`.  The `inputs` (closure
argument types) are carried by the projection but do not affect the upvar
layout.  When the goal kind exceeds the offered kind the constraint is never
satisfied and no layout exists (`none`), a compile-time error. -/
def kindHelperUpvars (offered goal : ClosureKind) (env : Nat)
    (_inputs : List Ty) (upvars : List Capture) : Option (List Ty) :=
  if kindSatisfies offered goal then
    some (upvars.map (rebind env))
  else
    none

/-- Compile-time ownership state of a by-value binding as tracked by the move
checker: still owned, or moved out of. -/
inductive Ownership
  | owned
  | moved
deriving DecidableEq

/-- Modelled from the spec: the move discipline the compiler enforces for the
by-value `self` receiver of `async_call_once` (line 63), which is not itself
in the sources.  Invoking `async_call_once` requires an owned callable and
leaves it moved; invoking it on an already-moved binding has no valid typing
(`none`), a compile-time rejection. -/
def callOnceCheck : Ownership → Option Ownership
  | .owned => some .moved
  | .moved => none

/-- A concrete deferred-computation type for the end-to-end scenario: an
opaque handle that will eventually yield a value of type `T` (the handle
itself is just a nominal wrapper, as the core never inspects it). -/
structure SomeFuture (T : Type) where
  val : T

/-- The `Future` implementation of `SomeFuture T`, with `Output = T`. -/
def someFutureInst (T : Type) : Future (SomeFuture T) where
  Output := T

/-- The ordinary-call implementation of a function value of type `a → b`
(a Rust `fn(a) -> b` pointer): all three ordinary tiers, each calling the
function on the argument; the exclusive-reference call leaves the value
unchanged. -/
def fnPtrImpl (a b : Type) : Fn (a → b) a where
  Output := b
  call_once := fun f x => f x
  call_mut := fun f x => (f x, f)
  call := fun f x => f x

/-- The `AsyncFn` implementation the blanket rule derives for
`fn(i32) -> SomeFuture<bool>` over the one-element argument tuple `(i32,)`
(embedded as its single component). -/
def endToEndInst : AsyncFn (Int → SomeFuture Bool) Int :=
  asyncFnBlanket (fnPtrImpl Int (SomeFuture Bool)) (someFutureInst Bool)

/-- Wrapping `u8` addition: `u8` values are naturals below 256 and addition
reduces modulo 256. -/
def u8add (x y : Nat) : Nat := (x + y) % 256

/-- `def_et3` of `dyn-rpit-and-let.rs` lines 33-42: the boxed value `mk`
returns the range `0..10` of `u8`; as an iterator it yields exactly the
elements `0, 1, ..., 9`, embedded as that list.  `Range<u8>` is `Clone`, and
cloning yields the same element sequence. -/
def et3_mk : List Nat := List.range 10

/-- The accumulator `s` computed by the loop of `use_et3` (lines 43-51):
starting from `0u8`, for each element of the cloned range the loop adds `1u8`
to it (`_2 = _1 + 1u8`), converts with the identity `Into<u8>` conversion, and
adds the result into `s` with `u8` arithmetic. -/
def use_et3_s : Nat :=
  et3_mk.foldl (fun s x => u8add s (u8add x 1)) 0

/-- The right-hand side of the assertion in `use_et3` (line 50):
`(0..10).map(|x| x + 1).sum()` computed in `u8` arithmetic. -/
def use_et3_rhs : Nat :=
  (et3_mk.map (fun x => u8add x 1)).foldl u8add 0

/-- Claim C1: for every ordinary callable implementing the corresponding
ordinary call tier whose result type is a Future, the derived async call of
each tier is the identity forwarding of the ordinary call (`async_call`
forwards to `call`, `async_call_mut` to `call_mut`, `async_call_once` to
`call_once`), and each associated future type is set equal to the ordinary
call result type directly, constructing no new wrapper future. -/
theorem blanket_async_tiers_forward {F A : Type}
    (iFn : Fn F A) (futFn : Future iFn.Output)
    (iMut : FnMut F A) (futMut : Future iMut.Output)
    (iOnce : FnOnce F A) (futOnce : Future iOnce.Output) :
    ((asyncFnBlanket iFn futFn).async_call = iFn.call ∧
      (asyncFnBlanket iFn futFn).CallFuture = iFn.Output) ∧
    ((asyncFnMutBlanket iMut futMut).async_call_mut = iMut.call_mut ∧
      (asyncFnMutBlanket iMut futMut).CallMutFuture = iMut.Output) ∧
    ((asyncFnOnceBlanket iOnce futOnce).async_call_once = iOnce.call_once ∧
      (asyncFnOnceBlanket iOnce futOnce).CallOnceFuture = iOnce.Output) :=
  ⟨⟨rfl, rfl⟩, ⟨rfl, rfl⟩, ⟨rfl, rfl⟩⟩

/-- Claim C2: implementing the ByRef tier (`AsyncFn`) implies implementing the
ByMutRef tier (`AsyncFnMut`) and the ByValue tier (`AsyncFnOnce`), and
implementing ByMutRef implies implementing ByValue but does not imply ByRef:
the three tiers form a strict supertrait chain `AsyncFn : AsyncFnMut :
AsyncFnOnce`, witnessed both at the implementation level (every `AsyncFn`
implementation contains implementations of the two lower tiers) and on the
closure of the declared supertrait relation. -/
theorem async_tier_chain_strict :
    (∀ (F A : Type), AsyncFn F A → Nonempty (AsyncFnMut F A) ∧ Nonempty (AsyncFnOnce F A)) ∧
    (∀ (F A : Type), AsyncFnMut F A → Nonempty (AsyncFnOnce F A)) ∧
    subsumes AsyncTier.byRef AsyncTier.byMutRef = true ∧
    subsumes AsyncTier.byRef AsyncTier.byValue = true ∧
    subsumes AsyncTier.byMutRef AsyncTier.byValue = true ∧
    subsumes AsyncTier.byMutRef AsyncTier.byRef = false :=
  ⟨fun _ _ i => ⟨⟨i.toAsyncFnMut⟩, ⟨i.toAsyncFnOnce⟩⟩,
   fun _ _ i => ⟨i.toAsyncFnOnce⟩, rfl, rfl, rfl, rfl⟩

/-- Claim C3: an ordinary function of type `fn(i32) -> SomeFuture<bool>`
satisfies `AsyncFn<(i32,)>` through the blanket rule, with `Output = bool` and
`CallFuture = SomeFuture<bool>`, and calling it asynchronously with argument
`(5,)` produces the very value obtained by calling it ordinarily with `(5,)`. -/
theorem fn_future_end_to_end (f : Int → SomeFuture Bool) :
    endToEndInst.Output = Bool ∧
    endToEndInst.CallFuture = SomeFuture Bool ∧
    endToEndInst.async_call f 5 = f 5 ∧
    endToEndInst.async_call f 5 = (fnPtrImpl Int (SomeFuture Bool)).call f 5 :=
  ⟨rfl, rfl, rfl, rfl⟩

/-- Claim C4: for every ordinary callable whose result type is not a Future,
none of the three blanket derivations applies (their where clause
`<F as FnOnce<A>>::Output: Future` fails), so a call site requesting any async
tier finds no matching implementation and is a compile-time error. -/
theorem blanket_inapplicable_without_future (c : OrdCallable)
    (h : isFutureTy c.output = false) (t : AsyncTier) :
    resolveAsync c t = none := by
  simp [resolveAsync, h]

/-- Concrete instance of claim C4: a callable offering every ordinary tier but
returning the non-future type `i32` resolves to no async tier. -/
theorem blanket_inapplicable_witness :
    resolveAsync ⟨Ty.i32, OrdTier.fnTier⟩ AsyncTier.byRef = none ∧
    resolveAsync ⟨Ty.i32, OrdTier.fnTier⟩ AsyncTier.byMutRef = none ∧
    resolveAsync ⟨Ty.i32, OrdTier.fnTier⟩ AsyncTier.byValue = none :=
  ⟨blanket_inapplicable_without_future ⟨Ty.i32, OrdTier.fnTier⟩ rfl AsyncTier.byRef,
   blanket_inapplicable_without_future ⟨Ty.i32, OrdTier.fnTier⟩ rfl AsyncTier.byMutRef,
   blanket_inapplicable_without_future ⟨Ty.i32, OrdTier.fnTier⟩ rfl AsyncTier.byValue⟩

/-- Claim C5: for a closure capturing one by-move variable of type `T` and one
by-reference variable `&x U`, the `Upvars` projection of the kind helper at
any goal kind within the offered kind, under borrow scope `env`, yields the
upvar layout `(T, &env U)`: the move capture is unchanged and the reference
capture has its region rebound to the borrow scope of the call. -/
theorem kind_reconciliation_upvars (offered goal : ClosureKind)
    (h : kindSatisfies offered goal = true) (env : Nat) (inputs : List Ty)
    (T U : Ty) (x : Nat) :
    kindHelperUpvars offered goal env inputs
        [Capture.byMove T, Capture.byRef x U] =
      some [T, Ty.ref env U] := by
  simp [kindHelperUpvars, h, rebind]

/-- Concrete instance of claim C5: an `Fn`-offering closure reconciled to an
`FnOnce` goal under borrow scope `7`, capturing an `i32` by move and a `bool`
by reference out of region `3`. -/
theorem kind_reconciliation_upvars_witness :
    kindHelperUpvars ClosureKind.fn ClosureKind.fnOnce 7 [Ty.i32]
        [Capture.byMove Ty.i32, Capture.byRef 3 Ty.bool] =
      some [Ty.i32, Ty.ref 7 Ty.bool] :=
  kind_reconciliation_upvars ClosureKind.fn ClosureKind.fnOnce rfl 7 [Ty.i32]
    Ty.i32 Ty.bool 3

/-- Claim C6: `async_call_once` takes the callable by value, so a first
invocation on an owned callable succeeds and consumes it, and a second
invocation on the same owned value has no valid typing: it is rejected at
compile time, never manifesting as a runtime failure. -/
theorem async_call_once_single_use :
    callOnceCheck Ownership.owned = some Ownership.moved ∧
    (callOnceCheck Ownership.owned).bind callOnceCheck = none :=
  ⟨rfl, rfl⟩

/-- Claim C7: a goal kind that exceeds the offered kind in the tier ordering
is rejected during compile-time capability selection: the
`AsyncFnKindHelper<GoalKind>` constraint is never satisfied, no upvar layout
is produced, and in particular a ByValue-only (`FnOnce`) offering never
satisfies a ByRef (`Fn`) goal. -/
theorem goal_kind_exceeds_offered_rejected (offered goal : ClosureKind)
    (h : kindSatisfies offered goal = false) (env : Nat) (inputs : List Ty)
    (upvars : List Capture) :
    kindHelperUpvars offered goal env inputs upvars = none ∧
    kindSatisfies ClosureKind.fnOnce ClosureKind.fn = false :=
  ⟨by simp [kindHelperUpvars, h], rfl⟩

/-- Concrete instance of claim C7: an `FnOnce`-offering closure against an
`Fn` goal produces no upvar layout. -/
theorem goal_kind_exceeds_offered_witness :
    kindHelperUpvars ClosureKind.fnOnce ClosureKind.fn 0 []
        [Capture.byMove Ty.unit] = none ∧
    kindSatisfies ClosureKind.fnOnce ClosureKind.fn = false :=
  goal_kind_exceeds_offered_rejected ClosureKind.fnOnce ClosureKind.fn rfl 0 []
    [Capture.byMove Ty.unit]

/-- Claim C8: in every implementation of the async tier hierarchy, the
associated future types of all three tiers are constrained to be Futures whose
`Output` equals the single `Output` declared in `AsyncFnOnce`, so the three
call forms cannot have futures with different eventual result types. -/
theorem all_tier_futures_share_output {F A : Type} (i : AsyncFn F A) :
    i.callFutureInst.Output = i.Output ∧
    i.mutFutureInst.Output = i.Output ∧
    i.futureInst.Output = i.Output ∧
    i.callFutureInst.Output = i.mutFutureInst.Output ∧
    i.mutFutureInst.Output = i.futureInst.Output :=
  ⟨i.call_output_eq, i.mut_output_eq, i.output_eq,
   i.call_output_eq.trans i.mut_output_eq.symm,
   i.mut_output_eq.trans i.output_eq.symm⟩

/-- Claim C9: under the blanket derivation for an ordinary callable with
future result, the three associated future types coincide as types, all equal
to the ordinary call result type `<F as FnOnce<A>>::Output`. -/
theorem blanket_future_types_coincide {F A : Type} (i : Fn F A)
    (fut : Future i.Output) :
    (asyncFnBlanket i fut).CallFuture = (asyncFnBlanket i fut).CallMutFuture ∧
    (asyncFnBlanket i fut).CallMutFuture = (asyncFnBlanket i fut).CallOnceFuture ∧
    (asyncFnBlanket i fut).CallOnceFuture = i.Output :=
  ⟨rfl, rfl, rfl⟩

/-- Claim C10: in the regression test `use_et3`, iterating the cloned range
`0..10`, adding `1u8` to each element and summing yields `s = 55`, which
equals `(0..10).map(|x| x + 1).sum()`, so the assertion succeeds and the test
runs to completion without panicking. -/
theorem use_et3_sum_correct :
    use_et3_s = 55 ∧ use_et3_s = use_et3_rhs := by
  constructor <;> decide
